import Mathlib

/-!
Verification development for the SmartBuzz candidate-selection pipeline
(`scripts/candidate_selection.py`), shallowly embedded in Lean 4.

The pipeline works on GeoDataFrames (here `GDF`): ordered row collections
carrying a CRS tag.  Geometry-library primitives (planar area, pairwise
distance, zero-distance buffer repair) are kept abstract in a `GeoModel`
parameter; the pipeline code itself (filters, column matching, CRS
handling, the nearest join, the orchestrator) is translated function by
function from the source.
-/

/-- Coordinate reference system metadata: an EPSG code together with the
flag telling whether the CRS is geographic (angular) rather than projected.
Mirrors the `gdf.crs` object and its `is_geographic` attribute. -/
structure CRS where
  code : Nat
  is_geographic : Bool
deriving DecidableEq, Repr

/-- EPSG:6539, NAD83(2011) / New York Long Island (ftUS): projected, US feet. -/
def epsg6539 : CRS := { code := 6539, is_geographic := false }

/-- EPSG:32618, UTM zone 18N: projected, meters. -/
def epsg32618 : CRS := { code := 32618, is_geographic := false }

/-- EPSG:4326, WGS84 latitude/longitude: geographic. -/
def epsg4326 : CRS := { code := 4326, is_geographic := true }

/-- Geometry record as observed by the pipeline: nullness, emptiness, the
geometry-type string (as returned by `gdf.geometry.type`), topological
validity, and an abstract shape identity standing for the coordinates. -/
structure Geom where
  isNull : Bool
  isEmpty : Bool
  gtype : String
  isValid : Bool
  shape : Nat
deriving DecidableEq, Repr

/-- Row of a GeoDataFrame: a geometry, the attribute columns (stringified
values, as the pipeline only ever compares them through `astype(str)`),
and the two numeric columns the pipeline itself creates (`area_sqft`,
`dist_m`); `none` stands for the column being absent or NaN. -/
structure Row where
  geom : Geom
  attrs : List (String × String)
  area_sqft : Option ℚ
  dist_m : Option ℚ
deriving DecidableEq, Repr

/-- GeoDataFrame: a CRS tag (possibly unset), the attribute column names in
order, and the rows in order. -/
structure GDF where
  crs : Option CRS
  columns : List String
  rows : List Row
deriving DecidableEq, Repr

/-- Abstract geometry-library primitives.  `area g c` is the planar area of
`g` measured in the squared units of CRS `c` (`none` meaning raw
coordinates); `dist g s c` the planar distance measured in `c`; `buffer0`
the zero-distance buffer used as repair.  Reprojection is treated as exact,
so a geometry keeps its identity across CRS changes and only the measuring
CRS matters. -/
structure GeoModel where
  area : Geom → Option CRS → ℚ
  dist : Geom → Geom → CRS → ℚ
  buffer0 : Geom → Geom

/-- MIN_STALLS constant from the source (dead design input). -/
def MIN_STALLS : Nat := 8

/-- MIN_AREA_SQFT: the final hardcoded area threshold (the stall-ratio
proxy on the previous line of the source is immediately overwritten). -/
def MIN_AREA_SQFT : ℚ := 30000

/-- MIN_DISTANCE_M: minimum clearance from an existing EV station, meters. -/
def MIN_DISTANCE_M : ℚ := 800

/-- LANDUSE_ALLOWED: accepted commercial/retail land-use codes. -/
def LANDUSE_ALLOWED : List String := ["COM", "C", "COMM", "10", "11", "12", "13"]

/-- Land-use column aliases recognized by `landuse_filter`. -/
def LU_ALIASES : List String := ["LANDUSE", "LU", "LU_DESC", "PROP_CLASS", "PROPCL"]

/-- Uppercasing used by `c.upper()` and `.str.upper()` (character-wise
ASCII uppercase), written over the character list so that it evaluates by
kernel reduction. -/
def str_upper (s : String) : String := String.mk (s.data.map Char.toUpper)

/-- Model of `GeoDataFrame.to_crs`: reprojects the collection onto the
target CRS.  Raises (here: `none`) when the source CRS is unset, as
geopandas cannot transform naive geometries.  Shape identities are
preserved (reprojection is treated as exact). -/
def to_crs (gdf : GDF) (target : CRS) : Option GDF :=
  match gdf.crs with
  | none => none
  | some _ => some { gdf with crs := some target }

/-- Test used by the source for the accepted parcel geometry types
(`gdf.geometry.type.isin(["Polygon", "MultiPolygon"])`). -/
def isPolygonal (g : Geom) : Bool :=
  decide (g.gtype = "Polygon" ∨ g.gtype = "MultiPolygon")

/-- Condition of the source line `if gdf.crs is None or gdf.crs.is_geographic`. -/
def crs_needs_reproject (c : Option CRS) : Bool :=
  match c with
  | none => true
  | some c => c.is_geographic

/-- Per-row effect of the masked assignment
`gdf.loc[~is_valid, "geometry"] = buffer(0)`: invalid geometries are
replaced by their zero-distance buffer, valid ones are untouched. -/
def repair (M : GeoModel) (r : Row) : Row :=
  if r.geom.isValid then r else { r with geom := M.buffer0 r.geom }

/-- validate_parcels: drops null, empty and non-polygonal geometries,
repairs invalid ones with a zero-distance buffer, and reprojects to
EPSG:6539 when the CRS is unset or geographic (`none` models the
ValueError that `to_crs` raises on a collection with no CRS). -/
def validate_parcels (M : GeoModel) (gdf : GDF) : Option GDF :=
  let rows1 := gdf.rows.filter (fun r => !r.geom.isNull)
  let rows2 := rows1.filter (fun r => !r.geom.isEmpty)
  let rows3 := rows2.filter (fun r => isPolygonal r.geom)
  let g : GDF := { gdf with rows := rows3.map (repair M) }
  if crs_needs_reproject g.crs then to_crs g epsg6539 else some g

/-- add_area: sets `area_sqft` on every row to the planar area of its
geometry measured in the collection's current CRS
(`gdf["area_sqft"] = gdf.geometry.area`). -/
def add_area (M : GeoModel) (gdf : GDF) : GDF :=
  { gdf with
    columns :=
      if gdf.columns.contains "area_sqft" then gdf.columns
      else gdf.columns ++ ["area_sqft"]
    rows := gdf.rows.map (fun r => { r with area_sqft := some (M.area r.geom gdf.crs) }) }

/-- Column detection of `landuse_filter`: the first column whose uppercased
name is one of the accepted aliases. -/
def lu_col (gdf : GDF) : Option String :=
  gdf.columns.find? (fun c => LU_ALIASES.contains (str_upper c))

/-- Attribute lookup on a row; a missing cell stringifies to "nan" under
`astype(str)`. -/
def getAttr (r : Row) (c : String) : String :=
  match r.attrs.find? (fun p => p.1 == c) with
  | some p => p.2
  | none => "nan"

/-- Warning text emitted by `landuse_filter` when no alias column matches. -/
def LU_WARNING : String := "Land-use column not detected. Skipping land-use filter."

/-- landuse_filter: keeps the rows whose land-use value, stringified and
uppercased, lies in LANDUSE_ALLOWED; with no detected column it passes the
collection through unchanged and emits a warning (second component). -/
def landuse_filter (gdf : GDF) : GDF × List String :=
  match lu_col gdf with
  | none => (gdf, [LU_WARNING])
  | some c =>
    ({ gdf with
       rows := gdf.rows.filter (fun r => LANDUSE_ALLOWED.contains (str_upper (getAttr r c))) }, [])

/-- Minimum distance (in CRS `c`) from geometry `g` to a station list;
`none` when there are no stations (the NaN of the left join). -/
def min_dist_to (M : GeoModel) (c : CRS) (g : Geom) (stations : List Geom) : Option ℚ :=
  (stations.map (fun s => M.dist g s c)).min?

/-- Output rows that `sjoin_nearest(..., how="left", distance_col)`
produces for a single left row: one row per equidistant nearest station
(geopandas returns all ties), or a single row with NaN distance when the
right side is empty. -/
def nearest_rows (M : GeoModel) (c : CRS) (stations : List Geom) (r : Row) : List Row :=
  match min_dist_to M c r.geom stations with
  | none => [{ r with dist_m := none }]
  | some m =>
    (stations.filter (fun s => decide (M.dist r.geom s c = m))).map
      (fun _ => { r with dist_m := some m })

/-- Model of `gpd.sjoin_nearest(parcels_m, stations_m[["geometry"]],
how="left", distance_col="dist_m")` at the row level. -/
def sjoin_nearest (M : GeoModel) (c : CRS) (parcels : List Row) (stations : List Geom) : List Row :=
  parcels.flatMap (nearest_rows M c stations)

/-- Boolean mask `joined["dist_m"] >= MIN_DISTANCE_M`; a NaN distance
compares false in pandas. -/
def dist_pred (r : Row) : Bool :=
  match r.dist_m with
  | some d => decide (MIN_DISTANCE_M ≤ d)
  | none => false

/-- Station geometries used by the join (`stations_m[["geometry"]]`). -/
def station_geoms (stations : GDF) : List Geom :=
  stations.rows.map (fun r => r.geom)

/-- distance_filter: reprojects both collections to EPSG:32618, joins every
parcel to its nearest station recording the distance, keeps parcels at
distance at least MIN_DISTANCE_M, and reprojects the result back to the
parcels' original CRS. -/
def distance_filter (M : GeoModel) (parcels stations : GDF) : Option GDF :=
  (to_crs parcels epsg32618).bind (fun parcels_m =>
  (to_crs stations epsg32618).bind (fun stations_m =>
    let joined : GDF :=
      { parcels_m with
        columns := parcels_m.columns ++ ["dist_m"]
        rows := sjoin_nearest M epsg32618 parcels_m.rows (station_geoms stations_m) }
    let filtered : GDF := { joined with rows := joined.rows.filter dist_pred }
    match parcels.crs with
    | none => none
    | some c0 => some { filtered with crs := some c0 }))

/-- Boolean mask `parcels["area_sqft"] >= MIN_AREA_SQFT` of the inline
area-filter stage of `main`; a missing/NaN area compares false. -/
def area_pred (r : Row) : Bool :=
  match r.area_sqft with
  | some a => decide (MIN_AREA_SQFT ≤ a)
  | none => false

/-- Inline area-filter stage of `main`. -/
def area_filter (gdf : GDF) : GDF :=
  { gdf with rows := gdf.rows.filter area_pred }

/-- Filesystem environment of one pipeline run: the two optional parcel
files and the optional station file (in source order: Suffolk, Nassau). -/
structure Env where
  suffolk : Option GDF
  nassau : Option GDF
  stations : Option GDF

/-- Column union performed by `pd.concat` (first frame's columns, then the
new ones in order of appearance). -/
def union_cols (a b : List String) : List String :=
  a ++ b.filter (fun c => !a.contains c)

/-- Concatenation `gpd.GeoDataFrame(pd.concat(gdfs, ignore_index=True),
crs=gdfs[0].crs)`: rows appended, CRS taken from the first frame. -/
def concat_gdfs (g : GDF) (rest : List GDF) : GDF :=
  { crs := g.crs
    columns := rest.foldl (fun acc h => union_cols acc h.columns) g.columns
    rows := g.rows ++ rest.flatMap (fun h => h.rows) }

/-- load_parcels: reads whichever of the two parcel files exist and
concatenates them; raises FileNotFoundError (here `none`) when neither
exists. -/
def load_parcels (env : Env) : Option GDF :=
  match ([env.suffolk, env.nassau].filterMap id) with
  | [] => none
  | g :: rest => some (concat_gdfs g rest)

/-- Observable outcome of one run of `main`: the fatal `sys.exit(1)` taken
when no parcel source loads, an uncaught exception (a CRS-less collection
reaching `to_crs`), or the collection written to the output file. -/
inductive RunResult where
  | fatalNoParcels : RunResult
  | crashed : RunResult
  | written : GDF → RunResult
deriving DecidableEq, Repr

/-- main_run (the source function `main`; Lean reserves that name): load parcels (fatal on failure), validate, add areas, apply the
area and land-use filters, then either skip the distance filter (station
file absent) or apply it, and write the final collection. -/
def main_run (M : GeoModel) (env : Env) : RunResult :=
  match load_parcels env with
  | none => RunResult.fatalNoParcels
  | some parcels =>
    match validate_parcels M parcels with
    | none => RunResult.crashed
    | some p1 =>
      let p2 := add_area M p1
      let p3 := area_filter p2
      let p4 := (landuse_filter p3).1
      match env.stations with
      | none => RunResult.written p4
      | some stations =>
        match distance_filter M p4 stations with
        | none => RunResult.crashed
        | some final => RunResult.written final

/-! Helper lemmas shared by several claim proofs. -/

/-- Mapping a function that fixes every element of a list is the identity. -/
theorem list_map_id_on {α : Type} (f : α → α) :
    ∀ l : List α, (∀ x ∈ l, f x = x) → l.map f = l
  | [], _ => rfl
  | a :: l, h => by
    simp only [List.map_cons]
    rw [h a (List.mem_cons_self a l),
      list_map_id_on f l (fun x hx => h x (List.mem_cons_of_mem a hx))]

/-- Rows of a successful `validate_parcels` run: the three drop filters
followed by the per-row repair map. -/
def vrows (M : GeoModel) (gdf : GDF) : List Row :=
  (((gdf.rows.filter (fun r => !r.geom.isNull)).filter
    (fun r => !r.geom.isEmpty)).filter (fun r => isPolygonal r.geom)).map (repair M)

/-- validate_parcels fails (the `to_crs` ValueError) exactly on a CRS-less
collection. -/
theorem validate_parcels_none_crs (M : GeoModel) (gdf : GDF) (h : gdf.crs = none) :
    validate_parcels M gdf = none := by
  simp [validate_parcels, to_crs, crs_needs_reproject, h]

/-- validate_parcels on a geographic CRS: rows processed, CRS becomes EPSG:6539. -/
theorem validate_parcels_geo (M : GeoModel) (gdf : GDF) (c : CRS)
    (h : gdf.crs = some c) (hg : c.is_geographic = true) :
    validate_parcels M gdf =
      some { crs := some epsg6539, columns := gdf.columns, rows := vrows M gdf } := by
  simp [validate_parcels, to_crs, crs_needs_reproject, vrows, h, hg]

/-- validate_parcels on a projected CRS: rows processed, CRS kept. -/
theorem validate_parcels_proj (M : GeoModel) (gdf : GDF) (c : CRS)
    (h : gdf.crs = some c) (hg : c.is_geographic = false) :
    validate_parcels M gdf =
      some { crs := some c, columns := gdf.columns, rows := vrows M gdf } := by
  simp [validate_parcels, to_crs, crs_needs_reproject, vrows, h, hg]

/-- Inversion: a successful validate_parcels run has the processed rows. -/
theorem validate_parcels_rows (M : GeoModel) (gdf out : GDF)
    (h : validate_parcels M gdf = some out) : out.rows = vrows M gdf := by
  cases hc : gdf.crs with
  | none => rw [validate_parcels_none_crs M gdf hc] at h; exact Option.noConfusion h
  | some c =>
    cases hg : c.is_geographic with
    | true =>
      rw [validate_parcels_geo M gdf c hc hg] at h
      cases h
      rfl
    | false =>
      rw [validate_parcels_proj M gdf c hc hg] at h
      cases h
      rfl

/-- Inversion: a successful validate_parcels run leaves a projected CRS. -/
theorem validate_parcels_crs (M : GeoModel) (gdf out : GDF)
    (h : validate_parcels M gdf = some out) :
    crs_needs_reproject out.crs = false := by
  cases hc : gdf.crs with
  | none => rw [validate_parcels_none_crs M gdf hc] at h; exact Option.noConfusion h
  | some c =>
    cases hg : c.is_geographic with
    | true =>
      rw [validate_parcels_geo M gdf c hc hg] at h
      cases h
      rfl
    | false =>
      rw [validate_parcels_proj M gdf c hc hg] at h
      cases h
      simp [crs_needs_reproject, hg]

/-- Shared concrete geometries for witnesses. -/
def gP : Geom := { isNull := false, isEmpty := false, gtype := "Polygon", isValid := true, shape := 0 }

/-- Shared concrete station point geometry for witnesses. -/
def gS : Geom := { isNull := false, isEmpty := false, gtype := "Point", isValid := true, shape := 1 }

/-! Claim C8: area threshold filter. -/

/-- C8: on a collection whose `area_sqft` field is populated, the inline
area-filter stage keeps exactly the parcels with `area_sqft` at least
MIN_AREA_SQFT: every retained parcel has area at least the threshold
and every rejected parcel has area strictly below it. -/
theorem C8_area_threshold (gdf : GDF)
    (hpop : ∀ r ∈ gdf.rows, r.area_sqft ≠ none) :
    (∀ r ∈ (area_filter gdf).rows, ∃ a : ℚ, r.area_sqft = some a ∧ MIN_AREA_SQFT ≤ a)
    ∧ (∀ r ∈ gdf.rows, r ∉ (area_filter gdf).rows →
        ∃ a : ℚ, r.area_sqft = some a ∧ a < MIN_AREA_SQFT) := by
  constructor
  · intro r hr
    obtain ⟨hin, hpred⟩ := List.mem_filter.mp hr
    cases ha : r.area_sqft with
    | none => simp [area_pred, ha] at hpred
    | some a =>
      simp only [area_pred, ha, decide_eq_true_eq] at hpred
      exact ⟨a, rfl, hpred⟩
  · intro r hr hnot
    cases ha : r.area_sqft with
    | none => exact absurd ha (hpop r hr)
    | some a =>
      refine ⟨a, rfl, ?_⟩
      by_contra hge
      push_neg at hge
      apply hnot
      refine List.mem_filter.mpr ⟨hr, ?_⟩
      simp [area_pred, ha, hge]

/-- Concrete parcel meeting the area threshold exactly. -/
def rowBig : Row := { geom := gP, attrs := [], area_sqft := some 30000, dist_m := none }

/-- Concrete parcel below the area threshold. -/
def rowSmall : Row := { geom := gP, attrs := [], area_sqft := some 100, dist_m := none }

/-- Concrete two-parcel collection for the C8 witness. -/
def gdf8 : GDF := { crs := some epsg6539, columns := ["area_sqft"], rows := [rowBig, rowSmall] }

/-- C8 witness: the theorem applied to a concrete populated collection. -/
theorem C8_area_threshold_witness :
    (∀ r ∈ (area_filter gdf8).rows, ∃ a : ℚ, r.area_sqft = some a ∧ MIN_AREA_SQFT ≤ a)
    ∧ (∀ r ∈ gdf8.rows, r ∉ (area_filter gdf8).rows →
        ∃ a : ℚ, r.area_sqft = some a ∧ a < MIN_AREA_SQFT) :=
  C8_area_threshold gdf8 (by decide)

/-! Claim C3: land-use filter. -/

/-- C3: when some column's uppercased name is an accepted alias, the
land-use filter keeps exactly the rows whose value in the detected column,
stringified and uppercased, lies in LANDUSE_ALLOWED (and warns nothing);
when no column matches, the output equals the input exactly and the
warning is emitted. -/
theorem C3_landuse_filter (gdf : GDF) :
    (∀ c, lu_col gdf = some c →
      landuse_filter gdf =
        ({ gdf with
           rows := gdf.rows.filter (fun r => LANDUSE_ALLOWED.contains (str_upper (getAttr r c))) },
         []))
    ∧ (lu_col gdf = none → landuse_filter gdf = (gdf, [LU_WARNING])) := by
  constructor
  · intro c hc
    unfold landuse_filter
    rw [hc]
  · intro hc
    unfold landuse_filter
    rw [hc]

/-- Concrete commercial parcel (lowercase code, exercising the uppercasing). -/
def rowCom : Row := { geom := gP, attrs := [("PROPCL", "com")], area_sqft := none, dist_m := none }

/-- Concrete residential parcel. -/
def rowRes : Row := { geom := gP, attrs := [("PROPCL", "RES")], area_sqft := none, dist_m := none }

/-- Concrete collection with a recognized land-use column. -/
def gdfLU : GDF := { crs := some epsg6539, columns := ["PROPCL"], rows := [rowCom, rowRes] }

/-- Concrete collection with no recognized land-use column. -/
def gdfNoLU : GDF := { crs := some epsg6539, columns := ["OWNER"], rows := [rowCom] }

/-- C3 witness: both branches of the theorem at concrete collections. -/
theorem C3_landuse_filter_witness :
    landuse_filter gdfLU = ({ gdfLU with rows := [rowCom] }, [])
    ∧ landuse_filter gdfNoLU = (gdfNoLU, [LU_WARNING]) := by
  constructor
  · rw [(C3_landuse_filter gdfLU).1 "PROPCL" rfl]
    rfl
  · exact (C3_landuse_filter gdfNoLU).2 rfl

/-! Claims C2, C9, C4: the validator and the area stage. -/

/-- Library-behaviour assumption on the zero-distance buffer used as
repair: it yields a topologically valid geometry and does not change
nullness, emptiness or geometry type (the spec's reading of zero-buffer
repair, which resolves self-intersections without altering the extent). -/
def buffer0_tame (M : GeoModel) : Prop :=
  ∀ g : Geom, (M.buffer0 g).isValid = true ∧ (M.buffer0 g).isNull = g.isNull
    ∧ (M.buffer0 g).isEmpty = g.isEmpty ∧ (M.buffer0 g).gtype = g.gtype

/-- Row postcondition of a successful validator run. -/
theorem validate_postcond (M : GeoModel) (gdf out : GDF)
    (hM : buffer0_tame M) (h : validate_parcels M gdf = some out) :
    ∀ r ∈ out.rows, r.geom.isNull = false ∧ r.geom.isEmpty = false
      ∧ isPolygonal r.geom = true ∧ r.geom.isValid = true := by
  intro r hr
  rw [validate_parcels_rows M gdf out h] at hr
  obtain ⟨r0, hr0, hrep⟩ := List.mem_map.mp hr
  obtain ⟨hr0b, hpoly⟩ := List.mem_filter.mp hr0
  obtain ⟨hr0c, hemp⟩ := List.mem_filter.mp hr0b
  obtain ⟨hr0d, hnull⟩ := List.mem_filter.mp hr0c
  have hnull' : r0.geom.isNull = false := by simpa using hnull
  have hemp' : r0.geom.isEmpty = false := by simpa using hemp
  subst hrep
  unfold repair
  by_cases hv : r0.geom.isValid
  · rw [if_pos hv]
    exact ⟨hnull', hemp', hpoly, hv⟩
  · rw [if_neg hv]
    obtain ⟨h1, h2, h3, h4⟩ := hM r0.geom
    refine ⟨?_, ?_, ?_, h1⟩
    · simpa [h2] using hnull'
    · simpa [h3] using hemp'
    · simpa [isPolygonal, h4] using hpoly

/-- C2: every record of a successful validator run has a non-null,
non-empty, Polygon or MultiPolygon, topologically valid geometry —
including records whose invalid geometry was replaced by its
zero-distance buffer repair (assumed tame, as the library documents). -/
theorem C2_validator_postcondition (M : GeoModel) (gdf out : GDF)
    (hM : buffer0_tame M) (h : validate_parcels M gdf = some out) :
    ∀ r ∈ out.rows, r.geom.isNull = false ∧ r.geom.isEmpty = false
      ∧ (r.geom.gtype = "Polygon" ∨ r.geom.gtype = "MultiPolygon")
      ∧ r.geom.isValid = true := by
  intro r hr
  obtain ⟨h1, h2, h3, h4⟩ := validate_postcond M gdf out hM h r hr
  refine ⟨h1, h2, ?_, h4⟩
  simpa [isPolygonal] using h3

/-- Concrete geometry model whose repair just marks the geometry valid. -/
def Mw : GeoModel :=
  { area := fun _ _ => 0
    dist := fun _ _ _ => 0
    buffer0 := fun g => { g with isValid := true } }

/-- Concrete invalid polygon geometry. -/
def gBad : Geom := { isNull := false, isEmpty := false, gtype := "Polygon", isValid := false, shape := 5 }

/-- Concrete null geometry. -/
def gNull : Geom := { isNull := true, isEmpty := false, gtype := "Polygon", isValid := true, shape := 6 }

/-- Concrete valid parcel row. -/
def rowValid : Row := { geom := gP, attrs := [], area_sqft := none, dist_m := none }

/-- Concrete invalid-geometry parcel row. -/
def rowInvalid : Row := { geom := gBad, attrs := [], area_sqft := none, dist_m := none }

/-- Concrete null-geometry parcel row. -/
def rowNull : Row := { geom := gNull, attrs := [], area_sqft := none, dist_m := none }

/-- Concrete point-geometry row (wrong type for a parcel). -/
def rowPoint : Row := { geom := gS, attrs := [], area_sqft := none, dist_m := none }

/-- Concrete mixed-quality geographic-CRS collection. -/
def gdf2w : GDF :=
  { crs := some epsg4326, columns := [], rows := [rowValid, rowInvalid, rowNull, rowPoint] }

/-- Validator output on `gdf2w`. -/
def out2w : GDF :=
  { crs := some epsg6539, columns := []
    rows := [rowValid, { rowInvalid with geom := { gBad with isValid := true } }] }

/-- C2 witness: the theorem at the concrete mixed-quality collection (the
null and point rows dropped, the invalid one repaired). -/
theorem C2_validator_postcondition_witness :
    out2w.rows.length = 2
    ∧ ∀ r ∈ out2w.rows, r.geom.isNull = false ∧ r.geom.isEmpty = false
      ∧ (r.geom.gtype = "Polygon" ∨ r.geom.gtype = "MultiPolygon")
      ∧ r.geom.isValid = true :=
  ⟨rfl, C2_validator_postcondition Mw gdf2w out2w (fun _ => ⟨rfl, rfl, rfl, rfl⟩) rfl⟩

/-- Validator no-op on an already-valid projected collection. -/
theorem validate_noop (M : GeoModel) (gdf : GDF)
    (hrows : ∀ r ∈ gdf.rows, r.geom.isNull = false ∧ r.geom.isEmpty = false
      ∧ isPolygonal r.geom = true ∧ r.geom.isValid = true)
    (hcrs : crs_needs_reproject gdf.crs = false) :
    validate_parcels M gdf = some gdf := by
  have h1 : gdf.rows.filter (fun r => !r.geom.isNull) = gdf.rows :=
    List.filter_eq_self.mpr (fun r hr => by simp [(hrows r hr).1])
  have h2 : gdf.rows.filter (fun r => !r.geom.isEmpty) = gdf.rows :=
    List.filter_eq_self.mpr (fun r hr => by simp [(hrows r hr).2.1])
  have h3 : gdf.rows.filter (fun r => isPolygonal r.geom) = gdf.rows :=
    List.filter_eq_self.mpr (fun r hr => (hrows r hr).2.2.1)
  have h4 : gdf.rows.map (repair M) = gdf.rows :=
    list_map_id_on (repair M) gdf.rows (fun r hr => by simp [repair, (hrows r hr).2.2.2])
  unfold validate_parcels
  simp only [h1, h2, h3, h4, hcrs]
  simp

/-- C9: the validator is idempotent — running it on its own successful
output returns that output unchanged — and on an already-valid collection
with a projected CRS it is a no-op, under the tame-repair assumption. -/
theorem C9_validator_idempotent (M : GeoModel) (gdf : GDF) (hM : buffer0_tame M) :
    (validate_parcels M gdf).bind (validate_parcels M) = validate_parcels M gdf
    ∧ ((∀ r ∈ gdf.rows, r.geom.isNull = false ∧ r.geom.isEmpty = false
          ∧ isPolygonal r.geom = true ∧ r.geom.isValid = true) →
        crs_needs_reproject gdf.crs = false →
        validate_parcels M gdf = some gdf) := by
  constructor
  · cases hv : validate_parcels M gdf with
    | none => rfl
    | some out =>
      have hpost := validate_postcond M gdf out hM hv
      have hcrs := validate_parcels_crs M gdf out hv
      exact validate_noop M out hpost hcrs
  · intro hrows hcrs
    exact validate_noop M gdf hrows hcrs

/-- Concrete already-valid projected collection for the C9 witness. -/
def gdf9 : GDF := { crs := some epsg6539, columns := [], rows := [rowValid] }

/-- C9 witness: the theorem at the concrete already-valid collection. -/
theorem C9_validator_idempotent_witness :
    (validate_parcels Mw gdf9).bind (validate_parcels Mw) = validate_parcels Mw gdf9
    ∧ ((∀ r ∈ gdf9.rows, r.geom.isNull = false ∧ r.geom.isEmpty = false
          ∧ isPolygonal r.geom = true ∧ r.geom.isValid = true) →
        crs_needs_reproject gdf9.crs = false →
        validate_parcels Mw gdf9 = some gdf9) :=
  C9_validator_idempotent Mw gdf9 (fun _ => ⟨rfl, rfl, rfl, rfl⟩)

/-- C4 amended: after validation the collection sits on EPSG:6539 exactly
when the input CRS was undefined or geographic; an input already on some
other projected CRS keeps that CRS, and `add_area` measures `area_sqft`
in the collection's current CRS, whichever that is. -/
theorem C4_area_crs_conditional (M : GeoModel) (gdf out : GDF)
    (h : validate_parcels M gdf = some out) :
    (crs_needs_reproject gdf.crs = true → out.crs = some epsg6539)
    ∧ (crs_needs_reproject gdf.crs = false → out.crs = gdf.crs)
    ∧ (add_area M out).rows
        = out.rows.map (fun r => { r with area_sqft := some (M.area r.geom out.crs) }) := by
  refine ⟨?_, ?_, rfl⟩
  · intro hc
    cases hcrs : gdf.crs with
    | none => rw [validate_parcels_none_crs M gdf hcrs] at h; exact Option.noConfusion h
    | some c =>
      cases hg : c.is_geographic with
      | true =>
        rw [validate_parcels_geo M gdf c hcrs hg] at h
        cases h
        rfl
      | false =>
        rw [hcrs] at hc
        simp [crs_needs_reproject, hg] at hc
  · intro hc
    cases hcrs : gdf.crs with
    | none =>
      rw [hcrs] at hc
      simp [crs_needs_reproject] at hc
    | some c =>
      cases hg : c.is_geographic with
      | true =>
        rw [hcrs] at hc
        simp [crs_needs_reproject, hg] at hc
      | false =>
        rw [validate_parcels_proj M gdf c hcrs hg] at h
        cases h
        rfl

/-- C4 amended witness: a geographic-CRS input is reprojected to EPSG:6539
and areas are measured there. -/
theorem C4_area_crs_conditional_witness :
    (crs_needs_reproject gdf2w.crs = true → out2w.crs = some epsg6539)
    ∧ (crs_needs_reproject gdf2w.crs = false → out2w.crs = gdf2w.crs)
    ∧ (add_area Mw out2w).rows
        = out2w.rows.map (fun r => { r with area_sqft := some (Mw.area r.geom out2w.crs) }) :=
  C4_area_crs_conditional Mw gdf2w out2w rfl

/-- Geometry model whose area oracle distinguishes the measuring CRS. -/
def M4 : GeoModel :=
  { area := fun _ c => if c = some epsg6539 then 1000 else 7
    dist := fun _ _ _ => 0
    buffer0 := fun g => g }

/-- Parcel collection already projected on the meters CRS EPSG:32618. -/
def gdf4 : GDF := { crs := some epsg32618, columns := [], rows := [rowValid] }

/-- C4 counterexample: a collection arriving already projected on
EPSG:32618 is left on that CRS by the validator, and `add_area` then
measures area in the meters CRS (value 7 under `M4`) rather than on the
feet CRS EPSG:6539 (where the same geometry measures 1000): `area_sqft`
is not a square-feet value for such inputs. -/
theorem C4_counterexample :
    validate_parcels M4 gdf4 = some gdf4
    ∧ gdf4.crs ≠ some epsg6539
    ∧ (add_area M4 gdf4).rows.map (fun r => r.area_sqft) = [some 7]
    ∧ M4.area gP (some epsg6539) = 1000 := by
  refine ⟨rfl, ?_, rfl, rfl⟩
  decide

/-! Claims C1, C7, C10: the distance filter. -/

/-- Evaluation of distance_filter when both collections carry a CRS. -/
theorem distance_filter_eq (M : GeoModel) (parcels stations : GDF) (c0 c1 : CRS)
    (hp : parcels.crs = some c0) (hs : stations.crs = some c1) :
    distance_filter M parcels stations =
      some { crs := some c0
             columns := parcels.columns ++ ["dist_m"]
             rows := (sjoin_nearest M epsg32618 parcels.rows
               (station_geoms stations)).filter dist_pred } := by
  unfold distance_filter to_crs
  rw [hp, hs]
  rfl

/-- Rows of a successful distance_filter run: the nearest join followed by
the threshold mask. -/
theorem distance_filter_rows (M : GeoModel) (parcels stations out : GDF)
    (h : distance_filter M parcels stations = some out) :
    out.rows
      = (sjoin_nearest M epsg32618 parcels.rows (station_geoms stations)).filter dist_pred := by
  cases hp : parcels.crs with
  | none =>
    unfold distance_filter to_crs at h
    rw [hp] at h
    exact Option.noConfusion h
  | some c0 =>
    cases hs : stations.crs with
    | none =>
      unfold distance_filter to_crs at h
      rw [hp, hs] at h
      exact Option.noConfusion h
    | some c1 =>
      rw [distance_filter_eq M parcels stations c0 c1 hp hs] at h
      cases h
      rfl

/-- A nonempty station list always yields a minimum distance. -/
theorem min_dist_to_isSome (M : GeoModel) (c : CRS) (g : Geom) (stations : List Geom)
    (h : stations ≠ []) : ∃ m : ℚ, min_dist_to M c g stations = some m := by
  cases hm : min_dist_to M c g stations with
  | some m => exact ⟨m, rfl⟩
  | none =>
    unfold min_dist_to at hm
    rw [List.min?_eq_none_iff, List.map_eq_nil_iff] at hm
    exact absurd hm h

/-- The minimum distance is attained by some station. -/
theorem min_dist_to_attained (M : GeoModel) (c : CRS) (g : Geom) (stations : List Geom)
    (m : ℚ) (h : min_dist_to M c g stations = some m) :
    ∃ s ∈ stations, M.dist g s c = m := by
  unfold min_dist_to at h
  have hm := List.min?_mem (fun a b : ℚ => min_choice a b) h
  exact List.mem_map.mp hm

/-- Evaluation of nearest_rows with no station. -/
theorem nearest_rows_none (M : GeoModel) (c : CRS) (stations : List Geom) (r : Row)
    (hm : min_dist_to M c r.geom stations = none) :
    nearest_rows M c stations r = [{ r with dist_m := none }] := by
  unfold nearest_rows
  rw [hm]

/-- Evaluation of nearest_rows at an attained minimum distance. -/
theorem nearest_rows_some (M : GeoModel) (c : CRS) (stations : List Geom) (r : Row) (m : ℚ)
    (hm : min_dist_to M c r.geom stations = some m) :
    nearest_rows M c stations r =
      (stations.filter (fun s => decide (M.dist r.geom s c = m))).map
        (fun _ => { r with dist_m := some m }) := by
  unfold nearest_rows
  rw [hm]

/-- Projection dropping the computed distance column, for comparing join
output rows with the filter's input rows. -/
def erase_dist (r : Row) : Row := { r with dist_m := none }

/-- C1: with at least one station, every parcel record surviving the
distance filter carries its true nearest-station distance (recomputed
independently as a minimum over the stations, in EPSG:32618) and that
distance is at least MIN_DISTANCE_M; every input parcel absent from the
output has nearest-station distance strictly below MIN_DISTANCE_M. -/
theorem C1_distance_filter_correct (M : GeoModel) (parcels stations out : GDF)
    (hne : stations.rows ≠ [])
    (h : distance_filter M parcels stations = some out) :
    (∀ r ∈ out.rows, ∃ d : ℚ, r.dist_m = some d ∧ MIN_DISTANCE_M ≤ d
        ∧ min_dist_to M epsg32618 r.geom (station_geoms stations) = some d)
    ∧ (∀ r ∈ parcels.rows, (∀ r2 ∈ out.rows, erase_dist r2 ≠ erase_dist r) →
        ∃ d : ℚ, min_dist_to M epsg32618 r.geom (station_geoms stations) = some d
          ∧ d < MIN_DISTANCE_M) := by
  have hrows := distance_filter_rows M parcels stations out h
  constructor
  · intro r hr
    rw [hrows] at hr
    obtain ⟨hmem, hpred⟩ := List.mem_filter.mp hr
    obtain ⟨r0, hr0, hnr⟩ := List.mem_flatMap.mp hmem
    unfold nearest_rows at hnr
    cases hmd : min_dist_to M epsg32618 r0.geom (station_geoms stations) with
    | none =>
      rw [hmd] at hnr
      rw [List.mem_singleton] at hnr
      subst hnr
      simp [dist_pred] at hpred
    | some m =>
      rw [hmd] at hnr
      obtain ⟨s, hs, hr_eq⟩ := List.mem_map.mp hnr
      subst hr_eq
      simp only [dist_pred, decide_eq_true_eq] at hpred
      exact ⟨m, rfl, hpred, hmd⟩
  · intro r hr habs
    have hsg : station_geoms stations ≠ [] := by
      intro hcon
      exact hne (by simpa [station_geoms, List.map_eq_nil_iff] using hcon)
    obtain ⟨m, hm⟩ := min_dist_to_isSome M epsg32618 r.geom (station_geoms stations) hsg
    refine ⟨m, hm, ?_⟩
    by_contra hge
    push_neg at hge
    obtain ⟨s, hs, hds⟩ := min_dist_to_attained M epsg32618 r.geom (station_geoms stations) m hm
    have hmem : { r with dist_m := some m } ∈ out.rows := by
      rw [hrows]
      refine List.mem_filter.mpr ⟨?_, ?_⟩
      · refine List.mem_flatMap.mpr ⟨r, hr, ?_⟩
        unfold nearest_rows
        rw [hm]
        exact List.mem_map_of_mem _ (List.mem_filter.mpr ⟨hs, by simp [hds]⟩)
      · simp only [dist_pred, decide_eq_true_eq]
        exact hge
    exact habs { r with dist_m := some m } hmem rfl

/-- Geometry model for the concrete distance-filter runs: the parcel of
shape 0 is 900 m from every station, any other geometry 100 m. -/
def M1 : GeoModel :=
  { area := fun _ _ => 0
    dist := fun g _ _ => if g.shape = 0 then 900 else 100
    buffer0 := fun g => g }

/-- Concrete parcel closer than the clearance threshold. -/
def rowNear : Row := { geom := { gP with shape := 2 }, attrs := [], area_sqft := none, dist_m := none }

/-- Concrete station row. -/
def rowStation : Row := { geom := gS, attrs := [], area_sqft := none, dist_m := none }

/-- Concrete two-parcel input for the distance filter. -/
def P1 : GDF := { crs := some epsg6539, columns := [], rows := [rowValid, rowNear] }

/-- Concrete one-station collection. -/
def S1 : GDF := { crs := some epsg4326, columns := [], rows := [rowStation] }

/-- Concrete distance-filter output on `P1` and `S1`. -/
def out1 : GDF :=
  { crs := some epsg6539, columns := ["dist_m"]
    rows := [{ rowValid with dist_m := some 900 }] }

/-- C1 witness: the theorem at the concrete run keeping the far parcel
(900 m) and dropping the near one (100 m). -/
theorem C1_distance_filter_correct_witness :
    (∀ r ∈ out1.rows, ∃ d : ℚ, r.dist_m = some d ∧ MIN_DISTANCE_M ≤ d
        ∧ min_dist_to M1 epsg32618 r.geom (station_geoms S1) = some d)
    ∧ (∀ r ∈ P1.rows, (∀ r2 ∈ out1.rows, erase_dist r2 ≠ erase_dist r) →
        ∃ d : ℚ, min_dist_to M1 epsg32618 r.geom (station_geoms S1) = some d
          ∧ d < MIN_DISTANCE_M) :=
  C1_distance_filter_correct M1 P1 S1 out1 (by decide) rfl

/-- A flatMap whose pieces are sublists of the matching singleton is a
sublist of the corresponding map. -/
theorem flatMap_sublist_map {α β : Type} (f : α → List β) (g : α → β) :
    ∀ l : List α, (∀ x ∈ l, (f x).Sublist [g x]) → (l.flatMap f).Sublist (l.map g)
  | [], _ => List.Sublist.refl []
  | a :: l, h => by
    rw [List.flatMap_cons, List.map_cons,
      show g a :: l.map g = [g a] ++ l.map g from rfl]
    exact List.Sublist.append (h a (List.mem_cons_self a l))
      (flatMap_sublist_map f g l (fun x hx => h x (List.mem_cons_of_mem a hx)))

/-- Uniqueness of the nearest station for every parcel of a collection. -/
def unique_nearest (M : GeoModel) (parcels : GDF) (sgeoms : List Geom) : Prop :=
  ∀ r ∈ parcels.rows, ∀ m : ℚ, min_dist_to M epsg32618 r.geom sgeoms = some m →
    (sgeoms.filter (fun s => decide (M.dist r.geom s epsg32618 = m))).length ≤ 1

/-- C7 amended: when every parcel's nearest station is unique, the filter
output lists each input parcel at most once — it is a sublist of the
per-parcel nearest-distance map of the input; with several exactly
equidistant nearest stations the join instead emits one record per tied
station (see the counterexample). -/
theorem C7_no_duplicates_of_unique_nearest (M : GeoModel) (parcels stations out : GDF)
    (h : distance_filter M parcels stations = some out)
    (hu : unique_nearest M parcels (station_geoms stations)) :
    out.rows.Sublist (parcels.rows.map (fun r =>
      { r with dist_m := min_dist_to M epsg32618 r.geom (station_geoms stations) })) := by
  rw [distance_filter_rows M parcels stations out h]
  apply List.Sublist.trans (List.filter_sublist _)
  unfold sjoin_nearest
  apply flatMap_sublist_map
  intro r hr
  cases hm : min_dist_to M epsg32618 r.geom (station_geoms stations) with
  | none =>
    rw [nearest_rows_none M epsg32618 (station_geoms stations) r hm]
  | some m =>
    rw [nearest_rows_some M epsg32618 (station_geoms stations) r m hm]
    have hlen := hu r hr m hm
    cases hfil : (station_geoms stations).filter
        (fun s => decide (M.dist r.geom s epsg32618 = m)) with
    | nil => simp
    | cons s rest =>
      cases rest with
      | nil => exact List.Sublist.refl _
      | cons s2 rest2 =>
        rw [hfil] at hlen
        simp [List.length_cons] at hlen

/-- C7 amended witness: the unique-nearest run on the concrete collections. -/
theorem C7_no_duplicates_witness :
    out1.rows.Sublist (P1.rows.map (fun r =>
      { r with dist_m := min_dist_to M1 epsg32618 r.geom (station_geoms S1) })) :=
  C7_no_duplicates_of_unique_nearest M1 P1 S1 out1 rfl
    (fun r hr m hm => le_trans (List.length_filter_le _ _) (by decide))

/-- Geometry model putting every station exactly 1000 m from everything. -/
def M7 : GeoModel :=
  { area := fun _ _ => 0
    dist := fun _ _ _ => 1000
    buffer0 := fun g => g }

/-- Single-parcel collection for the tie counterexample. -/
def P7 : GDF := { crs := some epsg32618, columns := [], rows := [rowValid] }

/-- Two-station collection, both stations equidistant from the parcel. -/
def S7 : GDF :=
  { crs := some epsg32618, columns := []
    rows := [rowStation, { rowStation with geom := { gS with shape := 2 } }] }

/-- C7 counterexample: with two stations exactly equidistant (1000 m) from
the single input parcel, the distance filter emits two records for that
parcel — the nearest join duplicates a parcel once per tied station, so
the output does not contain at most one record per parcel. -/
theorem C7_counterexample :
    P7.rows.length = 1
    ∧ (distance_filter M7 P7 S7).map (fun g => g.rows.length) = some 2
    ∧ (distance_filter M7 P7 S7).map (fun g => g.rows)
        = some [{ rowValid with dist_m := some 1000 }, { rowValid with dist_m := some 1000 }] :=
  ⟨rfl, rfl, rfl⟩

/-- C10: a present-but-empty station collection empties the filter output:
with no station to join against, every parcel of the non-empty input gets
a NaN distance, fails the threshold comparison, and is dropped. -/
theorem C10_empty_stations (M : GeoModel) (parcels stations out : GDF)
    (hnp : parcels.rows ≠ []) (hs : stations.rows = [])
    (h : distance_filter M parcels stations = some out) :
    out.rows = [] := by
  rw [distance_filter_rows M parcels stations out h]
  unfold sjoin_nearest
  rw [List.filter_flatMap]
  have hsg : station_geoms stations = [] := by simp [station_geoms, hs]
  rw [hsg]
  have hall : ∀ r : Row, (nearest_rows M epsg32618 [] r).filter dist_pred = [] := fun r => rfl
  simp [hall]

/-- Concrete empty station collection (present, zero records). -/
def S10 : GDF := { crs := some epsg4326, columns := [], rows := [] }

/-- Concrete distance-filter output for the empty-station run. -/
def out10 : GDF := { crs := some epsg32618, columns := ["dist_m"], rows := [] }

/-- C10 witness: the empty-station run on the concrete single-parcel input. -/
theorem C10_empty_stations_witness : out10.rows = [] :=
  C10_empty_stations M7 P7 S10 out10 (by decide) rfl rfl

/-! Claims C5 and C6: the orchestrator. -/

/-- C5: with the station dataset absent the orchestrator skips the
distance filter and writes exactly the collection surviving the
validator, area and land-use stages. -/
theorem C5_station_absent_skip (M : GeoModel) (env : Env) (parcels p1 : GDF)
    (hl : load_parcels env = some parcels)
    (hv : validate_parcels M parcels = some p1)
    (hs : env.stations = none) :
    main_run M env = RunResult.written (landuse_filter (area_filter (add_area M p1))).1 := by
  unfold main_run
  simp only [hl, hv, hs]

/-- Concrete one-parcel environment with no station file. -/
def env5 : Env := { suffolk := some gdf9, nassau := none, stations := none }

/-- C5 witness: the skip on the concrete environment. -/
theorem C5_station_absent_skip_witness :
    main_run Mw env5 = RunResult.written (landuse_filter (area_filter (add_area Mw gdf9))).1 :=
  C5_station_absent_skip Mw env5 gdf9 gdf9 rfl rfl rfl

/-- load_parcels fails exactly when both parcel files are absent. -/
theorem load_parcels_none_iff (env : Env) :
    load_parcels env = none ↔ (env.suffolk = none ∧ env.nassau = none) := by
  cases hs : env.suffolk <;> cases hn : env.nassau <;>
    simp [load_parcels, hs, hn]

/-- main_run is never the fatal outcome once some parcel source loads. -/
theorem main_run_not_fatal (M : GeoModel) (env : Env) (parcels : GDF)
    (hl : load_parcels env = some parcels) :
    main_run M env ≠ RunResult.fatalNoParcels := by
  unfold main_run
  rw [hl]
  cases hv : validate_parcels M parcels with
  | none => simp [hv]
  | some p1 =>
    cases hst : env.stations with
    | none => simp [hv, hst]
    | some stations =>
      cases hdf : distance_filter M ((landuse_filter (area_filter (add_area M p1))).1) stations with
      | none => simp [hv, hst, hdf]
      | some final => simp [hv, hst, hdf]

/-- C6: the pipeline aborts with the fatal no-parcel exit (writing
nothing, running no filter) exactly when neither parcel source is
available; any run with a parcel source never takes the fatal exit. -/
theorem C6_fatal_iff_no_parcels (M : GeoModel) (env : Env) :
    main_run M env = RunResult.fatalNoParcels ↔ (env.suffolk = none ∧ env.nassau = none) := by
  constructor
  · intro h
    cases hl : load_parcels env with
    | none => exact (load_parcels_none_iff env).mp hl
    | some parcels => exact absurd h (main_run_not_fatal M env parcels hl)
  · intro hno
    have hl : load_parcels env = none := (load_parcels_none_iff env).mpr hno
    unfold main_run
    rw [hl]
